import Mathlib

/-!
Shallow embedding of `src/connection.rs` from `ekshore/discord-rs`: the
Discord gateway connection manager (handshake, steady-state receive loop,
heartbeat worker, resume/reconnect recovery).

Modelling conventions:
* Machine integers (`u64`, `u8`) are modelled as `Nat`; none of the modelled
  code paths perform arithmetic that can overflow (sequence numbers and
  intervals are only stored and compared).
* `serde_json::Value` payloads constructed by the code form a closed set of
  shapes; they are modelled by the inductive `Payload`, one constructor per
  distinct JSON shape that the source builds.  Two payloads are equal iff the
  JSON values built by the source are equal.
* Fallible operations return `Except Error _`, mirroring `Result<_, Error>`.
* `tokio::sync::mpsc::Sender::send` is an `async fn`: calling it only builds
  a future, and the message is enqueued on the channel only when that future
  is polled (`.await`ed).  The embedding therefore appends a `Status` message
  to the channel trace exactly at the call sites that `.await` the send;
  a call site that drops the returned future un-awaited (e.g. the
  `Status::Sequence` send in `recv_event`, the `Status::ChangeInterval` send
  in `resume`, and `inner_shutdown()` invoked from `Drop`) enqueues nothing,
  which is what the compiled Rust does.
* The reads from the websocket are modelled as an explicit inbound stream of
  decode results (`Except Error GatewayEvent`), either as a list (when a loop
  consumes a finite prefix) or as `Nat → _` (when a fixed number of reads is
  made).
-/

namespace Discord

/-- Identify payload body, as built by `ConnectionBuilder::build_idenity`:
`{token, properties, large_threshold: 250, compress: true, v: 6}` with the
`shard` and `intents` keys appended only when configured on the builder.
The `properties` block is constant; it is not modelled field by field. -/
structure IdentifyD where
  token : String
  large_threshold : Nat
  compress : Bool
  v : Nat
  shard : Option (Nat × Nat)
  intents : Option Nat
deriving DecidableEq, Repr

/-- Closed set of outbound JSON payload shapes built by `connection.rs`.
Each constructor corresponds to one `json!{{...}}` shape in the source:
`identify` is op 2, `heartbeat` is `{"op": 1, "d": seq-or-null}`,
`resume` is `{"op": 6, "d": {"seq", "token", "session_id"}}`,
`presence` is op 3, `serverSync` op 12, `callSync` op 13, `memberSync` op 8. -/
inductive Payload where
  | identify (d : IdentifyD)
  | heartbeat (d : Option Nat)
  | resume (seq : Nat) (token : String) (session_id : String)
  | presence (afk : Bool) (status : Nat) (game : Option String)
  | serverSync (servers : List Nat)
  | callSync (channel : Nat)
  | memberSync (servers : List Nat)
deriving DecidableEq, Repr

/-- The `ReadyEvent` fields the connection code reads: protocol `version`,
`session_id` and `resume_url`. -/
structure ReadyEvent where
  version : Nat
  session_id : String
  resume_url : String
deriving DecidableEq, Repr

/-- Domain events: the connection code inspects only `Event::Ready` and
`Event::Resumed`; every other variant of the (large) `Event` union is
treated opaquely and modelled by `other` with an opaque tag. -/
inductive Event where
  | ready (r : ReadyEvent)
  | resumed
  | other (tag : Nat)
deriving DecidableEq, Repr

/-- Model of `GatewayEvent`: the decoded inbound frame union (op 10 Hello, op 0
Dispatch, op 1 Heartbeat, op 11 HeartbeatAck, op 7 Reconnect,
op 9 InvalidateSession). -/
inductive GatewayEvent where
  | hello (interval : Nat)
  | dispatch (seq : Nat) (ev : Event)
  | heartbeat (seq : Nat)
  | heartbeatAck
  | reconnect
  | invalidateSession
deriving DecidableEq, Repr

/-- The `Error` variants `recv_event` distinguishes: `Tungstenite` transport
errors (payload opaque), `Closed(code, message)`, `Protocol(&str)` and
`Other(&str)`.  Remaining variants of the crate error enum never reach the
modelled code and are absorbed into `other`. -/
inductive Error where
  | tungstenite (tag : Nat)
  | closed (num : Option Nat) (message : String)
  | protocol (msg : String)
  | other (msg : String)
deriving DecidableEq, Repr

/-- Model of `Status`: the control messages sent to the keepalive worker.
`changeSender` is the legacy variant whose handler is `unimplemented!()`;
`changeSenderV2` carries the new write half (identified opaquely by a `Nat`). -/
inductive Status where
  | sendMessage (p : Payload)
  | sequence (seq : Nat)
  | changeInterval (interval : Nat)
  | changeSender
  | changeSenderV2 (sender : Nat)
  | aborted
deriving DecidableEq, Repr

/-- The mutable state of `AsyncConnection` that the modelled code touches,
plus `keepaliveSent`: the trace of `Status` messages actually enqueued on
`keepalive_channel` (i.e. by sends that were `.await`ed). -/
structure Conn where
  keepaliveSent : List Status
  gateway_resume_url : String
  ws_url : String
  token : String
  session_id : Option String
  last_sequence : Nat
  identify : Payload
deriving DecidableEq, Repr

instance {ε α : Type} [DecidableEq ε] [DecidableEq α] : DecidableEq (Except ε α) := fun x y =>
  match x, y with
  | .ok a, .ok b =>
    if h : a = b then .isTrue (by rw [h]) else .isFalse (by simp [h])
  | .error a, .error b =>
    if h : a = b then .isTrue (by rw [h]) else .isFalse (by simp [h])
  | .ok _, .error _ => .isFalse (by simp)
  | .error _, .ok _ => .isFalse (by simp)

/-- Outcome of one iteration of the `recv_event` loop body:
`ret` returns to the caller (state and result), `cont` loops again,
`resumeThenReconnect sid` means the code will call `resume(sid)` and fall
back to `reconnect()` if that fails, `reconnectOnly` means it calls
`reconnect()` directly (whose `Ready` is returned wrapped in `Event::Ready`). -/
inductive RecvStep where
  | ret (c : Conn) (r : Except Error Event)
  | cont (c : Conn)
  | resumeThenReconnect (c : Conn) (session_id : String)
  | reconnectOnly (c : Conn)
deriving DecidableEq, Repr

/-- One iteration of the `loop` in `AsyncConnection::recv_event`
(connection.rs lines 318-393), acting on the next decode result from the
receiver.  Note on the `dispatch` arm: the source runs
`let _ = self.keepalive_channel.send(Status::Sequence(sequence));` without
`.await`, so the send future is dropped un-polled and no message reaches the
worker; hence `keepaliveSent` is unchanged there.  The heartbeat echo and the
re-identify sends are `.await`ed and do enqueue. -/
def recv_step (c : Conn) (item : Except Error GatewayEvent) : RecvStep :=
  match item with
  | .error (.tungstenite _) =>
    match c.session_id with
    | some sid => .resumeThenReconnect c sid
    | none => .reconnectOnly c
  | .error (.closed num _) =>
    if num ≠ some 4006 then
      match c.session_id with
      | some sid => .resumeThenReconnect c sid
      | none => .reconnectOnly c
    else .reconnectOnly c
  | .error e => .ret c (.error e)
  | .ok (.hello _) => .cont c
  | .ok (.dispatch seq ev) =>
    .ret { c with last_sequence := seq } (.ok ev)
  | .ok (.heartbeat seq) =>
    .cont { c with keepaliveSent := c.keepaliveSent ++ [.sendMessage (.heartbeat (some seq))] }
  | .ok .heartbeatAck => .cont c
  | .ok .reconnect => .reconnectOnly c
  | .ok .invalidateSession =>
    .cont { c with
      session_id := none
      keepaliveSent := c.keepaliveSent ++ [.sendMessage c.identify] }

/-- The `recv_event` loop run over a finite prefix of the inbound stream:
iterates `recv_step`, stopping at the first non-`cont` outcome;
`cont` on the last supplied item yields `none` (the real loop would block
on the next read). -/
def recv_loop (c : Conn) : List (Except Error GatewayEvent) → Option RecvStep
  | [] => none
  | item :: rest =>
    match recv_step c item with
    | .cont c' => recv_loop c' rest
    | out => some out

/-- Source constant `GATEWAY_VERSION: u64 = 6`. -/
def GATEWAY_VERSION : Nat := 6

/-- Model of `ConnectionBuilder`: base url, token, and the optional shard / intents
configuration (`large_threshold` is commented out in the source). -/
structure ConnectionBuilder where
  base_url : String
  token : String
  shard : Option (Nat × Nat)
  intents : Option Nat
deriving DecidableEq, Repr

/-- Source `ConnectionBuilder::new`: shard and intents start unset. -/
def ConnectionBuilder.new (base_url token : String) : ConnectionBuilder :=
  { base_url := base_url, token := token, shard := none, intents := none }

/-- Source `ConnectionBuilder::with_shard`. -/
def ConnectionBuilder.with_shard (b : ConnectionBuilder) (shard_id total_shards : Nat) :
    ConnectionBuilder :=
  { b with shard := some (shard_id, total_shards) }

/-- Source `ConnectionBuilder::with_intents`. -/
def ConnectionBuilder.with_intents (b : ConnectionBuilder) (intents : Nat) :
    ConnectionBuilder :=
  { b with intents := some intents }

/-- Source `ConnectionBuilder::build_idenity` (sic): the op-2 identify payload with
`large_threshold: 250`, `compress: true`, `v: GATEWAY_VERSION`, and the
`shard` / `intents` keys present exactly when set on the builder. -/
def ConnectionBuilder.build_idenity (b : ConnectionBuilder) : Payload :=
  .identify { token := b.token, large_threshold := 250, compress := true,
              v := GATEWAY_VERSION, shard := b.shard, intents := b.intents }

/-- Outcome of a handshake (`AsyncConnection::__connect`): the result, the
number of `recv_json` reads performed, the payloads written directly on the
socket by the handshake (the identify), and the `Status` messages enqueued on
the freshly spawned keepalive channel (the re-identify, when it happens).
On success the returned `Conn.keepaliveSent` equals that channel trace. -/
structure ConnectOutcome where
  result : Except Error (Conn × ReadyEvent)
  reads : Nat
  socketSent : List Payload
  keepaliveSent : List Status
deriving DecidableEq, Repr

/-- Source `AsyncConnection::__connect` (connection.rs lines 155-245): read one
frame, which must be `Hello`; send the identify on the socket and spawn the
keepalive worker; read a second frame, which must be a `Ready` dispatch, or
`InvalidateSession`, in which case the identify is re-sent (through the
keepalive channel, `.await`ed) and exactly one further frame is read, which
must be a `Ready` dispatch.  `frames n` is the decode result of the n-th
`recv_json` call; errors propagate through `?`.  Transport-establishment
failures before the first read are not modelled. -/
def AsyncConnection.__connect (base_url token : String) (identify : Payload)
    (frames : Nat → Except Error GatewayEvent) : ConnectOutcome :=
  match frames 0 with
  | .error e => ⟨.error e, 1, [], []⟩
  | .ok (.hello _interval) =>
    match frames 1 with
    | .error e => ⟨.error e, 2, [identify], []⟩
    | .ok (.dispatch seq (.ready ready)) =>
      ⟨.ok ({ keepaliveSent := [], gateway_resume_url := ready.resume_url,
              ws_url := base_url, token := token,
              session_id := some ready.session_id,
              last_sequence := seq, identify := identify }, ready),
       2, [identify], []⟩
    | .ok .invalidateSession =>
      match frames 2 with
      | .error e => ⟨.error e, 3, [identify], [.sendMessage identify]⟩
      | .ok (.dispatch seq (.ready ready)) =>
        ⟨.ok ({ keepaliveSent := [.sendMessage identify],
                gateway_resume_url := ready.resume_url,
                ws_url := base_url, token := token,
                session_id := some ready.session_id,
                last_sequence := seq, identify := identify }, ready),
         3, [identify], [.sendMessage identify]⟩
      | .ok .invalidateSession =>
        ⟨.error (.protocol "Invalid session during handshake. Double-check your token or consider waiting 5 seconds between starting shards."),
         3, [identify], [.sendMessage identify]⟩
      | .ok _ =>
        ⟨.error (.protocol "Expected Ready during handshake"),
         3, [identify], [.sendMessage identify]⟩
    | .ok _ =>
      ⟨.error (.protocol "Expected Ready or InvalidateSession during handshake"),
       2, [identify], []⟩
  | .ok _ => ⟨.error (.protocol "Expected Hello during handshake"), 1, [], []⟩

/-- Source `ConnectionBuilder::connect_async`: builds the identify from the builder
and hands it to `AsyncConnection::__connect`. -/
def ConnectionBuilder.connect_async (b : ConnectionBuilder)
    (frames : Nat → Except Error GatewayEvent) : ConnectOutcome :=
  AsyncConnection.__connect b.base_url b.token b.build_idenity frames

/-- Source `AsyncConnection::new(base_url, token, shard)`: builds a fresh
`ConnectionBuilder` with the given shard (intents unset) and connects. -/
def AsyncConnection.new (base_url token : String) (shard : Option (Nat × Nat))
    (frames : Nat → Except Error GatewayEvent) : ConnectOutcome :=
  ConnectionBuilder.connect_async
    { ConnectionBuilder.new base_url token with shard := shard } frames

/-- Source `Connection::__connect` (the synchronous path, connection.rs lines
588-606): despite receiving an `identify` argument, the body blocks on
`AsyncConnection::new(&base_url, token, None)`, so the argument is discarded
and a default identify (shard and intents unset) is what gets sent. -/
def Connection.__connect (base_url token : String) (identify : Payload)
    (frames : Nat → Except Error GatewayEvent) : ConnectOutcome :=
  let _unused := identify
  AsyncConnection.new base_url token none frames

/-- Source `ConnectionBuilder::connect` (the synchronous path): builds the identify
from the builder and passes it to `Connection::__connect`, which ignores it. -/
def ConnectionBuilder.connect (b : ConnectionBuilder)
    (frames : Nat → Except Error GatewayEvent) : ConnectOutcome :=
  Connection.__connect b.base_url b.token b.build_idenity frames

/-- Result of `AsyncConnection::resume`: the first dispatched event, an
error, or `stalled` when the supplied inbound prefix ran out while the loop
was still reading (the real loop would block on the next frame). -/
inductive ResumeResult where
  | ok (ev : Event)
  | err (e : Error)
  | stalled
deriving DecidableEq, Repr

/-- Trace of one `resume` call: the final connection state, the payloads
written on the NEW socket (resume request first, plus any re-identifies),
and the result. -/
structure ResumeOut where
  conn : Conn
  socketSent : List Payload
  result : ResumeResult
deriving DecidableEq, Repr

/-- The read loop inside `AsyncConnection::resume` (connection.rs lines
445-473), after the resume request has been sent.  `Hello` runs
`let _ = self.keepalive_channel.send(Status::ChangeInterval(interval));`
WITHOUT `.await` — the send future is dropped un-polled, so no message is
enqueued and the loop just continues.  A `Dispatch` breaks the loop: a
`Ready` updates `session_id`, `last_sequence` is set to the dispatched
sequence, the new read half is installed and the new write half is handed to
the existing worker via an `.await`ed `Status::ChangeSenderV2` send.
`InvalidateSession` re-sends the identify on the new socket (`.await`ed) and
keeps looping; any other frame is a protocol error. -/
def resume_loop (c : Conn) (new_sender : Nat) (sent : List Payload) :
    List (Except Error GatewayEvent) → ResumeOut
  | [] => ⟨c, sent, .stalled⟩
  | item :: rest =>
    match item with
    | .error e => ⟨c, sent, .err e⟩
    | .ok (.hello _interval) => resume_loop c new_sender sent rest
    | .ok (.dispatch seq ev) =>
      let c1 := match ev with
        | .ready r => { c with session_id := some r.session_id }
        | _ => c
      ⟨{ c1 with last_sequence := seq,
                 keepaliveSent := c1.keepaliveSent ++ [.changeSenderV2 new_sender] },
       sent, .ok ev⟩
    | .ok .invalidateSession => resume_loop c new_sender (sent ++ [c.identify]) rest
    | .ok _ => ⟨c, sent, .err (.protocol "Unexpected event during resume")⟩

/-- Source `AsyncConnection::resume(session_id)` (connection.rs lines 425-482):
opens a new transport (`new_sender` identifies its write half; establishment
failures before the first send are not modelled), sends
`{"op": 6, "d": {"seq": self.last_sequence, "token": self.token,
"session_id": session_id}}` built from the state at entry, then runs the
read loop on the new socket. -/
def resume (c : Conn) (session_id : String) (new_sender : Nat)
    (frames : List (Except Error GatewayEvent)) : ResumeOut :=
  resume_loop c new_sender [.resume c.last_sequence c.token session_id] frames

/-- Trace of one `reconnect` call: whether `Status::Aborted` was delivered to
the old worker (the source `.await`s and `.expect`s this send, so it is
always delivered), the URL of each full-handshake attempt in order, and the
final result. -/
structure ReconnectOut where
  aborted : Bool
  attempts : List String
  result : Except Error (Conn × ReadyEvent)
deriving DecidableEq, Repr

/-- Source `AsyncConnection::reconnect` (connection.rs lines 396-422): send
`Status::Aborted` to the worker, then try `AsyncConnection::__connect` on the
current `ws_url` up to 2 times with a `sleep_ms(1000)` between attempts; if
both fail, fetch a fresh gateway URL over REST (`get_gateway_url`) and make
exactly one more attempt on it.  The first success replaces the whole client
state (`mem::replace`) — then re-sets `session_id` from the ready — and
returns that `ReadyEvent`; otherwise the last error propagates.  `attempt n
url` abstracts the n-th `__connect(url, token, identify)` call;
`get_gateway_url` abstracts the REST lookup. -/
def reconnect (c : Conn)
    (attempt : Nat → String → Except Error (Conn × ReadyEvent))
    (get_gateway_url : Except Error String) : ReconnectOut :=
  match attempt 0 c.ws_url with
  | .ok (conn, ready) =>
    ⟨true, [c.ws_url], .ok ({ conn with session_id := some ready.session_id }, ready)⟩
  | .error _ =>
    match attempt 1 c.ws_url with
    | .ok (conn, ready) =>
      ⟨true, [c.ws_url, c.ws_url],
       .ok ({ conn with session_id := some ready.session_id }, ready)⟩
    | .error _ =>
      match get_gateway_url with
      | .error e => ⟨true, [c.ws_url, c.ws_url], .error e⟩
      | .ok url =>
        match attempt 2 url with
        | .ok (conn, ready) =>
          ⟨true, [c.ws_url, c.ws_url, url],
           .ok ({ conn with session_id := some ready.session_id }, ready)⟩
        | .error e => ⟨true, [c.ws_url, c.ws_url, url], .error e⟩

/-- Models `self.reconnect().await.map(Event::Ready)`: how `recv_event` surfaces a
successful reconnect to the caller. -/
def reconnect_event (r : Except Error (Conn × ReadyEvent)) : Except Error Event :=
  r.map fun p => Event.ready p.2

/-- Source `AsyncConnection::shutdown` / `inner_shutdown`: the `Status::Aborted`
send is `.await`ed (and `.expect`ed), so it is enqueued. -/
def inner_shutdown (c : Conn) : List Status :=
  c.keepaliveSent ++ [.aborted]

/-- The source `impl Drop for AsyncConnection` runs `let _ = self.inner_shutdown();`.
`inner_shutdown` is an `async fn`, so this call merely constructs a future,
which `let _ =` drops without ever polling it: no `Status::Aborted` (indeed
no message at all) is enqueued.  Dropping the connection does also drop its
channel `Sender`, which the worker later observes as
`TryRecvError::Disconnected`. -/
def drop_conn (c : Conn) : List Status :=
  c.keepaliveSent

/-- What the keepalive worker writes on its owned write half: an outbound
JSON payload, or the final websocket close frame. -/
inductive Write where
  | payload (p : Payload)
  | close
deriving DecidableEq, Repr

/-- The keepalive worker's state: the owned write half (opaque id), the
current timer interval, and the cached `last_sequence` (starts at 0). -/
structure Worker where
  sender : Nat
  interval : Nat
  last_sequence : Nat
deriving DecidableEq, Repr

/-- Outcome of the inner drain loop of `keepalive_async`: either the channel
reported `Empty` (fall through to the timer check), `Aborted` was received
(break the outer loop; remaining queued messages are dropped),
`Disconnected` was observed (break the outer loop), or a
`Status::ChangeSender` hit the `unimplemented!()` arm (panic — the task
unwinds). -/
inductive DrainOut where
  | empty (w : Worker) (writes : List Write)
  | abort (w : Worker) (writes : List Write)
  | disconnected (w : Worker) (writes : List Write)
  | panicked (w : Worker) (writes : List Write)
deriving DecidableEq, Repr

/-- Prefix a write onto a drain outcome. -/
def DrainOut.prepend (x : Write) : DrainOut → DrainOut
  | .empty w ws => .empty w (x :: ws)
  | .abort w ws => .abort w (x :: ws)
  | .disconnected w ws => .disconnected w (x :: ws)
  | .panicked w ws => .panicked w (x :: ws)

/-- The inner `loop` of `keepalive_async` (connection.rs lines 727-747):
drain the control channel with `try_recv` in FIFO order.  `SendMessage`
writes the payload immediately, `Sequence` caches the latest sequence,
`ChangeInterval` resets the timer, `ChangeSenderV2` swaps the owned write
half, `Aborted` breaks the outer loop at once (later queued messages are
never processed), `ChangeSender` panics.  `disconnected` says whether, after
the queued messages, `try_recv` reports `Disconnected` rather than `Empty`. -/
def drain (w : Worker) (disconnected : Bool) : List Status → DrainOut
  | [] => if disconnected then .disconnected w [] else .empty w []
  | m :: rest =>
    match m with
    | .sendMessage p => (drain w disconnected rest).prepend (.payload p)
    | .sequence s => drain { w with last_sequence := s } disconnected rest
    | .changeInterval i => drain { w with interval := i } disconnected rest
    | .changeSender => .panicked w []
    | .changeSenderV2 s => drain { w with sender := s } disconnected rest
    | .aborted => .abort w []

/-- Inputs to one tick of the worker loop: the control messages queued since
the previous tick, whether the channel is disconnected once drained, and
whether `timer.check_tick()` fires this tick. -/
structure TickInput where
  msgs : List Status
  disconnected : Bool
  elapsed : Bool
deriving DecidableEq, Repr

/-- Outcome of one tick: continue looping, exit the outer loop (Aborted or
Disconnected), or panic. -/
inductive TickOut where
  | cont (w : Worker) (writes : List Write)
  | exit (w : Worker) (writes : List Write)
  | panicked (w : Worker) (writes : List Write)
deriving DecidableEq, Repr

/-- One iteration of the `'outer` loop of `keepalive_async`: sleep 100ms,
drain all queued control messages, and only if the drain fell through
(channel `Empty`) check the heartbeat timer; when it elapsed, write
`{"op": 1, "d": last_sequence}` with the cached sequence. -/
def run_tick (w : Worker) (t : TickInput) : TickOut :=
  match drain w t.disconnected t.msgs with
  | .empty w' ws =>
    if t.elapsed then .cont w' (ws ++ [.payload (.heartbeat (some w'.last_sequence))])
    else .cont w' ws
  | .abort w' ws => .exit w' ws
  | .disconnected w' ws => .exit w' ws
  | .panicked w' ws => .panicked w' ws

/-- The `'outer` loop run over a finite schedule of ticks.  Returns the
final worker state, everything written on the write half, and whether the
loop exited.  Once a tick exits the loop, the close frame
(`Message::Close(None)`) is sent best-effort and NO later tick is processed;
a panic unwinds without sending the close frame. -/
def worker_run (w : Worker) : List TickInput → Worker × List Write × Bool
  | [] => (w, [], false)
  | t :: rest =>
    match run_tick w t with
    | .cont w' ws =>
      let r := worker_run w' rest
      (r.1, ws ++ r.2.1, r.2.2)
    | .exit w' ws => (w', ws ++ [.close], true)
    | .panicked w' ws => (w', ws, true)

/-- Source `keepalive_async(interval, sender, ...)` (connection.rs lines 704-764):
after a random jitter sleep it writes a first heartbeat
`{"op": 1, "d": null}`, initialises the timer with `interval` and the cached
sequence with 0, then runs the outer loop. -/
def keepalive_async (interval : Nat) (sender : Nat) (ticks : List TickInput) :
    Worker × List Write × Bool :=
  let r := worker_run { sender := sender, interval := interval, last_sequence := 0 } ticks
  (r.1, .payload (.heartbeat none) :: r.2.1, r.2.2)

/-- A control message that neither breaks the worker loop (`Aborted`) nor
hits the `unimplemented!()` arm (`ChangeSender`). -/
def statusOk (m : Status) : Bool :=
  match m with
  | .aborted => false
  | .changeSender => false
  | _ => true

/-- Boolean guard: the queue contains neither `Aborted` nor the
`unimplemented!()` `ChangeSender`, so the drain falls through to the timer. -/
def nonStopping (q : List Status) : Bool :=
  q.all statusOk

/-- Effect of one control message on the worker state (used to state the
FIFO-drain characterisation): `Sequence` caches the sequence,
`ChangeInterval` resets the timer period, `ChangeSenderV2` swaps the write
half, everything else leaves the state unchanged. -/
def applyStatus (w : Worker) (m : Status) : Worker :=
  match m with
  | .sequence s => { w with last_sequence := s }
  | .changeInterval i => { w with interval := i }
  | .changeSenderV2 s => { w with sender := s }
  | _ => w

/-- The payload writes a queue of control messages causes, in queue (FIFO)
order: exactly the `SendMessage` payloads. -/
def queuedWrites (q : List Status) : List Write :=
  q.filterMap fun m =>
    match m with
    | .sendMessage p => some (.payload p)
    | _ => none

/-- A concrete mid-session connection state used to instantiate theorems:
session `"sess"` established, no sequence seen yet, nothing enqueued. -/
def testConn : Conn :=
  { keepaliveSent := []
    gateway_resume_url := "wss://resume.gg"
    ws_url := "wss://gw.gg"
    token := "tok"
    session_id := some "sess"
    last_sequence := 0
    identify := (ConnectionBuilder.new "wss://gw.gg" "tok").build_idenity }

/-- The default identify payload for the test endpoint and token. -/
def testIdentify : Payload :=
  (ConnectionBuilder.new "wss://gw.gg" "tok").build_idenity

/-- Inbound handshake stream: `Hello`, then `InvalidateSession` on every
subsequent read. -/
def framesInvalidTwice : Nat → Except Error GatewayEvent := fun n =>
  match n with
  | 0 => .ok (.hello 41250)
  | _ => .ok .invalidateSession

/-- Inbound handshake stream: `Hello`, then a `Ready` dispatch. -/
def framesHelloReady : Nat → Except Error GatewayEvent := fun n =>
  match n with
  | 0 => .ok (.hello 41250)
  | _ => .ok (.dispatch 1 (.ready { version := 6, session_id := "sess", resume_url := "wss://resume.gg" }))

/-- A handshake oracle on which every attempt fails. -/
def allFail : Nat → String → Except Error (Conn × ReadyEvent) := fun _ _ =>
  .error (.other "connect failed")

/-- Head of the payloads sent during a resume loop is preserved: the loop
only ever appends (re-identifies) to the sent list. -/
theorem resume_loop_sent_head (tx : Nat) (p : Payload) :
    ∀ (frames : List (Except Error GatewayEvent)) (c : Conn) (rest : List Payload),
      (resume_loop c tx (p :: rest) frames).socketSent.head? = some p := by
  intro frames
  induction frames with
  | nil => intro c rest; rfl
  | cons item tl ih =>
    intro c rest
    cases item with
    | error e => rfl
    | ok ev =>
      cases ev with
      | hello i => exact ih c rest
      | dispatch seq ev2 => rfl
      | heartbeat s => rfl
      | heartbeatAck => rfl
      | reconnect => rfl
      | invalidateSession => exact ih c (rest ++ [c.identify])

/-- A `nonStopping` queue drains to `Empty` with every message applied in
FIFO order: the final worker state is the left fold of `applyStatus` and the
writes are exactly the queued `SendMessage` payloads in order. -/
theorem drain_nonStopping :
    ∀ (q : List Status) (w : Worker), nonStopping q = true →
      drain w false q = .empty (q.foldl applyStatus w) (queuedWrites q) := by
  intro q
  induction q with
  | nil => intro w _; rfl
  | cons m rest ih =>
    intro w h
    rw [show nonStopping (m :: rest) = (statusOk m && nonStopping rest) from rfl,
        Bool.and_eq_true] at h
    obtain ⟨hm, hrest⟩ := h
    cases m with
    | sendMessage p =>
      show (drain w false rest).prepend (.payload p) = _
      rw [ih w hrest]
      rfl
    | sequence s => exact ih _ hrest
    | changeInterval i => exact ih _ hrest
    | changeSender => exact absurd hm (by decide)
    | changeSenderV2 s => exact ih _ hrest
    | aborted => exact absurd hm (by decide)

/-- C1.  For every sequence of inbound Dispatch frames processed by
recv_event, after processing each frame the client's last_sequence field
equals the sequence number of the most recently processed Dispatch, the
worker is notified of that sequence, and every heartbeat frame the worker
sends thereafter carries that sequence value until the next update.
VERDICT: the first part holds, but the worker is NEVER notified: the
`Status::Sequence` send at connection.rs:353 is not `.await`ed, so the send
future is dropped un-polled and nothing reaches the worker — its cached
sequence stays at its old value (0 here) and the next heartbeat carries 0,
not the dispatched 7. -/
theorem C1_sequence_update_never_reaches_worker :
    (∀ (c : Conn) (seq : Nat) (ev : Event),
      recv_step c (.ok (.dispatch seq ev)) = .ret { c with last_sequence := seq } (.ok ev)
      ∧ ({ c with last_sequence := seq } : Conn).keepaliveSent = c.keepaliveSent)
    ∧ recv_step testConn (.ok (.dispatch 7 (.other 0))) =
        .ret { testConn with last_sequence := 7 } (.ok (.other 0))
    ∧ worker_run { sender := 9, interval := 41250, last_sequence := 0 } [⟨[], false, true⟩] =
        ({ sender := 9, interval := 41250, last_sequence := 0 },
         [.payload (.heartbeat (some 0))], false)
    ∧ Payload.heartbeat (some 0) ≠ Payload.heartbeat (some 7) := by
  exact ⟨fun c seq ev => ⟨rfl, rfl⟩, by decide, by decide, by decide⟩

/-- C2.  When recv_event observes a connection close whose close code is
4006, it never attempts a resume, even if a session_id is present, and goes
straight to full reconnect; for any other abnormal close, if a session_id is
present, a resume is attempted before any reconnect. -/
theorem C2_close_4006_skips_resume (c : Conn) (num : Option Nat) (msg : String) (sid : String) :
    recv_step c (.error (.closed (some 4006) msg)) = .reconnectOnly c
    ∧ (num ≠ some 4006 → c.session_id = some sid →
        recv_step c (.error (.closed num msg)) = .resumeThenReconnect c sid) := by
  constructor
  · simp [recv_step]
  · intro h hs
    simp [recv_step, h, hs]

theorem C2_close_4006_skips_resume_witness :
    recv_step testConn (.error (.closed (some 4006) "m")) = .reconnectOnly testConn
    ∧ recv_step testConn (.error (.closed (some 4000) "m")) =
        .resumeThenReconnect testConn "sess" :=
  ⟨(C2_close_4006_skips_resume testConn (some 4000) "m" "sess").1,
   (C2_close_4006_skips_resume testConn (some 4000) "m" "sess").2 (by decide) rfl⟩

/-- C4.  Whenever a resume is initiated, the resume request sent is exactly
the op-6 payload whose seq and session_id are the last_sequence and
session_id values recorded at the moment resume is initiated: the first
payload sent on the new socket is built from the state at entry, whatever
frames arrive afterwards. -/
theorem C4_resume_request_uses_entry_state (c : Conn) (sid : String) (tx : Nat)
    (frames : List (Except Error GatewayEvent)) :
    (resume c sid tx frames).socketSent.head? =
      some (.resume c.last_sequence c.token sid) :=
  resume_loop_sent_head tx _ frames c []

/-- C6.  During resume, receiving a Hello frame should deliver a
ChangeInterval message to the existing Worker, and on success the new write
half is handed over via ChangeSenderV2.  VERDICT: the second half holds (the
`ChangeSenderV2` send is `.await`ed and delivered), but the `Hello` arm runs
`let _ = self.keepalive_channel.send(Status::ChangeInterval(interval));`
without `.await` (connection.rs:449-451), so no ChangeInterval is ever
delivered: a Hello frame has no effect at all on the resume, as the first
conjunct shows, and the concrete run enqueues only the ChangeSenderV2. -/
theorem C6_change_interval_never_delivered :
    (∀ (c : Conn) (sid : String) (tx : Nat) (i : Nat)
        (rest : List (Except Error GatewayEvent)),
      resume c sid tx (.ok (.hello i) :: rest) = resume c sid tx rest)
    ∧ resume testConn "sess" 5 [.ok (.hello 41250), .ok (.dispatch 2 .resumed)] =
        ⟨{ testConn with last_sequence := 2, keepaliveSent := [.changeSenderV2 5] },
         [.resume 0 "tok" "sess"], .ok .resumed⟩ := by
  exact ⟨fun c sid tx i rest => rfl, by decide⟩

/-- C7.  Dropping the client without calling shutdown() should still post
Abort to the Worker, and in every case the Worker's loop exits with no
further transport writes afterward.  VERDICT: the drop impl runs
`let _ = self.inner_shutdown();` where `inner_shutdown` is an `async fn`, so
the future is dropped un-polled and NOTHING is posted (first conjunct; by
contrast an explicit `shutdown()` does post Aborted).  The loop-exit half
holds: the worker exits when it sees Aborted or the disconnected channel,
writes only the final close frame, and processes no later tick regardless of
the schedule. -/
theorem C7_drop_posts_nothing :
    drop_conn testConn = []
    ∧ inner_shutdown testConn = [.aborted]
    ∧ (∀ rest : List TickInput,
        worker_run { sender := 0, interval := 41250, last_sequence := 3 }
            (⟨[], true, true⟩ :: rest) =
          ({ sender := 0, interval := 41250, last_sequence := 3 }, [.close], true))
    ∧ (∀ rest : List TickInput,
        worker_run { sender := 0, interval := 41250, last_sequence := 3 }
            (⟨[.aborted, .sendMessage (.serverSync [1])], false, true⟩ :: rest) =
          ({ sender := 0, interval := 41250, last_sequence := 3 }, [.close], true)) :=
  ⟨rfl, rfl, fun _ => rfl, fun _ => rfl⟩

/-- C10.  Every decode error that is neither a Tungstenite transport error
nor a connection close is returned directly to the caller: no resume, no
reconnect, and the connection state (session_id, last_sequence, everything)
is unchanged; the loop stops at that item whatever follows. -/
theorem C10_other_errors_returned_directly (c : Conn) (e : Error)
    (h1 : ∀ t, e ≠ .tungstenite t) (h2 : ∀ n m, e ≠ .closed n m) :
    recv_step c (.error e) = .ret c (.error e)
    ∧ ∀ rest, recv_loop c (.error e :: rest) = some (.ret c (.error e)) := by
  have hstep : recv_step c (.error e) = .ret c (.error e) := by
    cases e with
    | tungstenite t => exact absurd rfl (h1 t)
    | closed n m => exact absurd rfl (h2 n m)
    | protocol m => rfl
    | other m => rfl
  refine ⟨hstep, fun rest => ?_⟩
  simp [recv_loop, hstep]

theorem C10_other_errors_returned_directly_witness :
    recv_step testConn (.error (.protocol "bad")) = .ret testConn (.error (.protocol "bad"))
    ∧ recv_loop testConn [.error (.protocol "bad")] =
        some (.ret testConn (.error (.protocol "bad"))) := by
  have h := C10_other_errors_returned_directly testConn (.protocol "bad")
    (fun t hh => nomatch hh) (fun n m hh => nomatch hh)
  exact ⟨h.1, h.2 []⟩

/-- C8.  On every tick the Worker first drains all currently queued control
messages in FIFO order (SendPayload written immediately, SequenceUpdate
cached, ChangeInterval resetting the timer, ChangeSenderV2 swapping the
owned sender) and only then checks whether the heartbeat timer has elapsed:
for a queue without Aborted/ChangeSender, the tick's writes are exactly the
queued payloads in queue order, followed — only when the timer elapsed — by
a heartbeat carrying the sequence cached after the drain. -/
theorem C8_drain_fifo_then_timer (w : Worker) (q : List Status)
    (h : nonStopping q = true) :
    run_tick w ⟨q, false, true⟩ =
      .cont (q.foldl applyStatus w)
        (queuedWrites q ++ [.payload (.heartbeat (some (q.foldl applyStatus w).last_sequence))])
    ∧ run_tick w ⟨q, false, false⟩ = .cont (q.foldl applyStatus w) (queuedWrites q) := by
  have hd := drain_nonStopping q w h
  constructor
  · simp [run_tick, hd]
  · simp [run_tick, hd]

theorem C8_drain_fifo_then_timer_witness :
    run_tick { sender := 0, interval := 41250, last_sequence := 0 }
        ⟨[.sequence 7], false, true⟩ =
      .cont { sender := 0, interval := 41250, last_sequence := 7 }
        [.payload (.heartbeat (some 7))] :=
  (C8_drain_fifo_then_timer { sender := 0, interval := 41250, last_sequence := 0 }
    [.sequence 7] (by decide)).1

/-- After a successful `Hello`, the handshake writes exactly the identify it
was given on the socket, whatever happens next. -/
theorem connect_socketSent_after_hello (base token : String) (d : Payload)
    (frames : Nat → Except Error GatewayEvent) (i : Nat)
    (h : frames 0 = .ok (.hello i)) :
    (AsyncConnection.__connect base token d frames).socketSent = [d] := by
  unfold AsyncConnection.__connect
  rw [h]
  rcases h1 : frames 1 with e1 | ev
  · rfl
  · cases ev <;> try rfl
    case dispatch seq ev2 => cases ev2 <;> rfl
    case invalidateSession =>
      rcases h2 : frames 2 with e2 | ev2
      · rfl
      · cases ev2 <;> try rfl
        case dispatch seq ev3 => cases ev3 <;> rfl

/-- C9.  The synchronous `ConnectionBuilder::connect` path always goes
through `AsyncConnection::new` with `shard = None` and a freshly built
default identify: whatever shard or intents were set on the builder, the
identify written on the socket is the default one, and it differs from the
builder's own identify whenever shard or intents were set. -/
theorem C9_sync_connect_discards_builder_identify (b : ConnectionBuilder)
    (frames : Nat → Except Error GatewayEvent) (i : Nat)
    (h : frames 0 = .ok (.hello i)) :
    b.connect frames = AsyncConnection.new b.base_url b.token none frames
    ∧ (b.connect frames).socketSent =
        [(ConnectionBuilder.new b.base_url b.token).build_idenity]
    ∧ ((b.shard ≠ none ∨ b.intents ≠ none) →
        (ConnectionBuilder.new b.base_url b.token).build_idenity ≠ b.build_idenity) := by
  refine ⟨rfl, ?_, ?_⟩
  · exact connect_socketSent_after_hello b.base_url b.token _ frames i h
  · rintro (hs | hi) heq
    · exact hs (congrArg
        (fun p => match p with | Payload.identify dd => dd.shard | _ => none) heq).symm
    · exact hi (congrArg
        (fun p => match p with | Payload.identify dd => dd.intents | _ => none) heq).symm

/-- A builder with a shard configured, for instantiating C9. -/
def shardedBuilder : ConnectionBuilder :=
  (ConnectionBuilder.new "wss://gw.gg" "tok").with_shard 1 2

theorem C9_sync_connect_discards_builder_identify_witness :
    (shardedBuilder.connect framesHelloReady).socketSent = [testIdentify]
    ∧ testIdentify ≠ shardedBuilder.build_idenity := by
  have h := C9_sync_connect_discards_builder_identify shardedBuilder framesHelloReady 41250 rfl
  exact ⟨h.2.1, h.2.2 (Or.inl (by decide))⟩

/-- C3.  `__connect` fails with a ProtocolError if the first frame received
is not Hello; when the frame after Identify is InvalidateSession, the
identify is re-sent exactly once (one message on the keepalive channel) and
exactly one more read is made (3 reads total, never a 4th); and when that
third frame is a second InvalidateSession the result is the fatal
ProtocolError, with no further attempt. -/
theorem C3_handshake_protocol_and_retry (base token : String) (identify : Payload)
    (frames : Nat → Except Error GatewayEvent) :
    (∀ ev, frames 0 = .ok ev → (∀ j, ev ≠ .hello j) →
      AsyncConnection.__connect base token identify frames =
        ⟨.error (.protocol "Expected Hello during handshake"), 1, [], []⟩)
    ∧ (∀ i, frames 0 = .ok (.hello i) → frames 1 = .ok .invalidateSession →
        (AsyncConnection.__connect base token identify frames).keepaliveSent =
          [.sendMessage identify]
        ∧ (AsyncConnection.__connect base token identify frames).reads = 3
        ∧ (frames 2 = .ok .invalidateSession →
            (AsyncConnection.__connect base token identify frames).result =
              .error (.protocol "Invalid session during handshake. Double-check your token or consider waiting 5 seconds between starting shards."))) := by
  constructor
  · intro ev h0 hne
    unfold AsyncConnection.__connect
    rw [h0]
    cases ev with
    | hello j => exact absurd rfl (hne j)
    | dispatch seq ev2 => rfl
    | heartbeat s => rfl
    | heartbeatAck => rfl
    | reconnect => rfl
    | invalidateSession => rfl
  · intro i h0 h1
    refine ⟨?_, ?_, ?_⟩
    · unfold AsyncConnection.__connect
      rw [h0, h1]
      rcases h2 : frames 2 with e2 | ev2
      · rfl
      · cases ev2 <;> try rfl
        case dispatch seq ev3 => cases ev3 <;> rfl
    · unfold AsyncConnection.__connect
      rw [h0, h1]
      rcases h2 : frames 2 with e2 | ev2
      · rfl
      · cases ev2 <;> try rfl
        case dispatch seq ev3 => cases ev3 <;> rfl
    · intro h2
      unfold AsyncConnection.__connect
      rw [h0, h1, h2]

theorem C3_handshake_protocol_and_retry_witness :
    (AsyncConnection.__connect "wss://gw.gg" "tok" testIdentify framesInvalidTwice).keepaliveSent =
      [.sendMessage testIdentify]
    ∧ (AsyncConnection.__connect "wss://gw.gg" "tok" testIdentify framesInvalidTwice).reads = 3
    ∧ (AsyncConnection.__connect "wss://gw.gg" "tok" testIdentify framesInvalidTwice).result =
        .error (.protocol "Invalid session during handshake. Double-check your token or consider waiting 5 seconds between starting shards.") := by
  have h := (C3_handshake_protocol_and_retry "wss://gw.gg" "tok" testIdentify
    framesInvalidTwice).2 41250 rfl rfl
  exact ⟨h.1, h.2.1, h.2.2 rfl⟩

/-- C5.  `reconnect` always aborts the current Worker first; it makes at
most two handshake attempts against the last known endpoint, and a third
attempt happens only after both failed and only against the REST-discovered
endpoint; any attempt's success yields that attempt's fresh state (with
`session_id` re-set from its Ready) and that Ready is what `recv_event`
surfaces via `reconnect_event`; if every attempt fails, an error is returned
to the caller. -/
theorem C5_reconnect_two_then_rest (c : Conn)
    (attempt : Nat → String → Except Error (Conn × ReadyEvent))
    (g : Except Error String) :
    (reconnect c attempt g).aborted = true
    ∧ (reconnect c attempt g).attempts ≠ []
    ∧ (reconnect c attempt g).attempts.length ≤ 3
    ∧ (∀ u ∈ (reconnect c attempt g).attempts.take 2, u = c.ws_url)
    ∧ ((reconnect c attempt g).attempts.length = 3 →
        (∃ e0, attempt 0 c.ws_url = .error e0)
        ∧ (∃ e1, attempt 1 c.ws_url = .error e1)
        ∧ ∃ url, g = .ok url
            ∧ (reconnect c attempt g).attempts = [c.ws_url, c.ws_url, url])
    ∧ (∀ conn ready, (reconnect c attempt g).result = .ok (conn, ready) →
        (∃ n url conn0, attempt n url = .ok (conn0, ready)
            ∧ conn = { conn0 with session_id := some ready.session_id })
        ∧ reconnect_event (reconnect c attempt g).result = .ok (.ready ready))
    ∧ ((attempt 0 c.ws_url).isOk = false → (attempt 1 c.ws_url).isOk = false →
        (∀ url, g = .ok url → (attempt 2 url).isOk = false) →
        ∃ e, (reconnect c attempt g).result = .error e) := by
  rcases h0 : attempt 0 c.ws_url with e0 | ⟨conn0, ready0⟩
  · rcases h1 : attempt 1 c.ws_url with e1 | ⟨conn1, ready1⟩
    · rcases hg : g with eg | url
      · have hre : reconnect c attempt (Except.error eg) =
            ⟨true, [c.ws_url, c.ws_url], .error eg⟩ := by
          simp [reconnect, h0, h1]
        refine ⟨by rw [hre], by rw [hre]; simp, by rw [hre]; simp, ?_, ?_, ?_, ?_⟩
        · rw [hre]
          intro u hu
          simpa using hu
        · rw [hre]
          intro h3
          simp at h3
        · intro conn ready hr
          rw [hre] at hr
          simp at hr
        · intro _ _ _
          exact ⟨eg, by rw [hre]⟩
      · rcases h2 : attempt 2 url with e2 | ⟨conn2, ready2⟩
        · have hre : reconnect c attempt (Except.ok url) =
              ⟨true, [c.ws_url, c.ws_url, url], .error e2⟩ := by
            simp [reconnect, h0, h1, h2]
          refine ⟨by rw [hre], by rw [hre]; simp, by rw [hre]; simp, ?_, ?_, ?_, ?_⟩
          · rw [hre]
            intro u hu
            simpa using hu
          · intro _
            exact ⟨⟨e0, rfl⟩, ⟨e1, rfl⟩, url, rfl, by rw [hre]⟩
          · intro conn ready hr
            rw [hre] at hr
            simp at hr
          · intro _ _ _
            exact ⟨e2, by rw [hre]⟩
        · have hre : reconnect c attempt (Except.ok url) =
              ⟨true, [c.ws_url, c.ws_url, url],
               .ok ({ conn2 with session_id := some ready2.session_id }, ready2)⟩ := by
            simp [reconnect, h0, h1, h2]
          refine ⟨by rw [hre], by rw [hre]; simp, by rw [hre]; simp, ?_, ?_, ?_, ?_⟩
          · rw [hre]
            intro u hu
            simpa using hu
          · intro _
            exact ⟨⟨e0, rfl⟩, ⟨e1, rfl⟩, url, rfl, by rw [hre]⟩
          · intro conn ready hr
            rw [hre] at hr
            injection hr with hp
            injection hp with ha hb
            subst hb
            exact ⟨⟨2, url, conn2, h2, ha.symm⟩, by rw [hre]; rfl⟩
          · intro _ _ hf2
            have hx := hf2 url rfl
            rw [h2] at hx
            exact Bool.noConfusion hx
    · have hre : reconnect c attempt g =
          ⟨true, [c.ws_url, c.ws_url],
           .ok ({ conn1 with session_id := some ready1.session_id }, ready1)⟩ := by
        simp [reconnect, h0, h1]
      refine ⟨by rw [hre], by rw [hre]; simp, by rw [hre]; simp, ?_, ?_, ?_, ?_⟩
      · rw [hre]
        intro u hu
        simpa using hu
      · rw [hre]
        intro h3
        simp at h3
      · intro conn ready hr
        rw [hre] at hr
        injection hr with hp
        injection hp with ha hb
        subst hb
        exact ⟨⟨1, c.ws_url, conn1, h1, ha.symm⟩, by rw [hre]; rfl⟩
      · intro _ hf1 _
        exact Bool.noConfusion hf1
  · have hre : reconnect c attempt g =
        ⟨true, [c.ws_url],
         .ok ({ conn0 with session_id := some ready0.session_id }, ready0)⟩ := by
      simp [reconnect, h0]
    refine ⟨by rw [hre], by rw [hre]; simp, by rw [hre]; simp, ?_, ?_, ?_, ?_⟩
    · rw [hre]
      intro u hu
      simpa using hu
    · rw [hre]
      intro h3
      simp at h3
    · intro conn ready hr
      rw [hre] at hr
      injection hr with hp
      injection hp with ha hb
      subst hb
      exact ⟨⟨0, c.ws_url, conn0, h0, ha.symm⟩, by rw [hre]; rfl⟩
    · intro hf0 _ _
      exact Bool.noConfusion hf0

theorem C5_reconnect_two_then_rest_witness :
    (reconnect testConn allFail (.ok "wss://new.gg")).aborted = true
    ∧ (∃ e, (reconnect testConn allFail (.ok "wss://new.gg")).result = .error e)
    ∧ (reconnect testConn allFail (.ok "wss://new.gg")).attempts =
        ["wss://gw.gg", "wss://gw.gg", "wss://new.gg"] := by
  have h := C5_reconnect_two_then_rest testConn allFail (.ok "wss://new.gg")
  refine ⟨h.1, h.2.2.2.2.2.2 rfl rfl ?_, ?_⟩
  · intro url hu
    injection hu with h2
    subst h2
    rfl
  · obtain ⟨_, _, url, hg, ha⟩ := h.2.2.2.2.1 (by rfl)
    injection hg with h2
    subst h2
    exact ha

end Discord
